import Mathlib

/-!
Verification development for the MakeMyFuture course-scheduling web
application. The embedding below translates the account/session module
(accounts.js), the schedule builder (ScheduleBuilder.js), the server routes
(app.js) and the client sign-up script (public/js/signup.js) into Lean.

Modelling conventions:
* `crypto.pbkdf2Sync(password, salt, iters, keylen, digest).toString("hex")`
  is an external library routine; it is modelled as an uninterpreted
  function parameter `pbkdf2 : String → String → Nat → Nat → String → String`
  (password, salt, iterations, key length in bytes, digest name → hex string).
* `crypto.randomBytes(32).toString("hex")` is modelled by passing the fresh
  salt as an explicit argument.
* MongoDB collections are modelled as Lean lists of documents in insertion
  order; the generated `insertedId` is passed as an explicit argument.
* JavaScript values that are sometimes the number 0 and sometimes a string
  (the `user_id` fields of the result objects) are modelled by a sum type.
-/

namespace MakeMyFuture

/-- The type of the modelled `crypto.pbkdf2Sync(...).toString("hex")` routine:
arguments are password, salt, iteration count, key length, digest name. -/
abbrev PBKDF2 := String → String → Nat → Nat → String → String

/-- accounts.js `validPassword(password, hash, salt)`: recompute
`pbkdf2Sync(password, salt, 10000, 64, "sha512")` in hex and compare with the
stored hash. -/
def validPassword (pbkdf2 : PBKDF2) (password hash salt : String) : Bool :=
  let hashVerify := pbkdf2 password salt 10000 64 "sha512"
  hash == hashVerify

/-- The `{salt, hash}` pair returned by `genPassword`. -/
structure HashSalt where
  salt : String
  hash : String
deriving Repr, DecidableEq

/-- accounts.js `genPassword(password)`: a fresh random salt (modelled as the
explicit argument `salt`) together with
`pbkdf2Sync(password, salt, 10000, 64, "sha512")` in hex. -/
def genPassword (pbkdf2 : PBKDF2) (salt password : String) : HashSalt :=
  let genHash := pbkdf2 password salt 10000 64 "sha512"
  { salt := salt, hash := genHash }

/-- A JavaScript value that is either a number or a string (the shape of the
`user_id` fields returned by the account/session routines: `0` on failure, an
id string on success). -/
inductive JSVal where
  | num (n : Int)
  | str (s : String)
deriving Repr, DecidableEq

/-- A document of the Accounts/accounts collection, as built by `sign_up`
(plus the MongoDB-generated id, as a string). -/
structure Account where
  time : Int
  username : String
  email : String
  hash : String
  salt : String
  oid : String
deriving Repr, DecidableEq

/-- Modelled from the spec: `mongo.get_data({"username": username},
"Accounts", "accounts")` from mongodb-library.js, which is not under src/.
The spec calls the lookups "simple keyed lookups", so a query on a field
returns the documents whose field equals the value, in insertion order. -/
def get_accounts_by_username (db : List Account) (username : String) :
    List Account :=
  db.filter (fun a => a.username == username)

/-- Modelled from the spec: `mongo.get_data({"email": email}, "Accounts",
"accounts")`, a keyed lookup on the email field. -/
def get_accounts_by_email (db : List Account) (email : String) :
    List Account :=
  db.filter (fun a => a.email == email)

/-- accounts.js `username_exists(username)`. -/
def username_exists (db : List Account) (username : String) : Bool :=
  (get_accounts_by_username db username).length > 0

/-- accounts.js `email_exists(email)`. -/
def email_exists (db : List Account) (email : String) : Bool :=
  (get_accounts_by_email db email).length > 0

/-- accounts.js `valid_user_pass_combo(username, password)`. -/
def valid_user_pass_combo (username password : String) : Bool :=
  username.length > 5 && password.length > 5

/-- The JSON object returned by `sign_up`. -/
structure SignUpResult where
  info : String
  account_created : Bool
  user_id : JSVal
deriving Repr, DecidableEq

/-- accounts.js `sign_up(username, password, email)`. The checks run in
order (duplicate username, length standard, duplicate email); only when all
pass is the new account document appended to the accounts collection
(`mongo.add_data` on a list is an append; `newId` models the generated
`insertedId` as a string, `now` models `(new Date()).getTime()`, `salt` the
random salt drawn inside `genPassword`). Returns the updated collection and
the result object. -/
def sign_up (pbkdf2 : PBKDF2) (db : List Account)
    (username password email : String) (now : Int) (salt newId : String) :
    List Account × SignUpResult :=
  if username_exists db username then
    (db, { info := "USERNAME ALREADY EXISTS", account_created := false,
           user_id := .num 0 })
  else if !valid_user_pass_combo username password then
    (db, { info := "BAD USERNAME PASSWORD", account_created := false,
           user_id := .num 0 })
  else if email_exists db email then
    (db, { info := "EMAIL TAKEN", account_created := false,
           user_id := .num 0 })
  else
    let hashSalt := genPassword pbkdf2 salt password
    let saveMe : Account :=
      { time := now, username := username, email := email,
        hash := hashSalt.hash, salt := hashSalt.salt, oid := newId }
    (db ++ [saveMe],
     { info := "ACCOUNT CREATED", account_created := true,
       user_id := .str newId })

/-- The JSON object returned by `login`. -/
structure LoginResult where
  info : String
  user_id : JSVal
  loggedIn : Bool
deriving Repr, DecidableEq

/-- accounts.js `login(username, password)`: look up the accounts with the
given username; report a missing account, an incorrect password (checked
against `accounts[0]`), or success with `accounts[0]._id` as a string. -/
def login (pbkdf2 : PBKDF2) (db : List Account) (username password : String) :
    LoginResult :=
  match get_accounts_by_username db username with
  | [] =>
    { info := "ACCOUNT DOES NOT EXIST", user_id := .num 0, loggedIn := false }
  | a :: _ =>
    if !validPassword pbkdf2 password a.hash a.salt then
      { info := "INCORRECT PASSWORD", user_id := .num 0, loggedIn := false }
    else
      { info := "LOGIN SUCCESSFUL", user_id := .str a.oid, loggedIn := true }

/-- A document of the Accounts/sessions collection. -/
structure Session where
  user_id : String
  hash : String
  salt : String
  issue_time : Int
deriving Repr, DecidableEq

/-- Modelled from the spec: `mongo.get_data({"user_id": user_id},
"Accounts", "sessions")`, a keyed lookup on the user_id field. -/
def get_sessions_by_user (db : List Session) (user_id : String) :
    List Session :=
  db.filter (fun s => s.user_id == user_id)

/-- Modelled from the spec: `mongo.get_data({"hash": hash}, "Accounts",
"sessions")`, a keyed lookup on the hash field. -/
def get_sessions_by_hash (db : List Session) (hash : String) : List Session :=
  db.filter (fun s => s.hash == hash)

/-- accounts.js `issue_session(user_id)`: if a session for the user already
exists, refresh its `issue_time` (`mongo.update_docs` with a `$set`, modelled
from the spec as updating every matching document in place); otherwise insert
one new session whose hash and salt come from `genPassword(user_id)`. In both
cases return `sessions[0]` of a fresh lookup (`none` models the JS
`undefined` when the lookup is empty). -/
def issue_session (pbkdf2 : PBKDF2) (db : List Session) (user_id : String)
    (now : Int) (salt : String) : List Session × Option Session :=
  let matching := get_sessions_by_user db user_id
  let db2 :=
    if matching.length != 0 then
      db.map (fun s =>
        if s.user_id == user_id then { s with issue_time := now } else s)
    else
      let hashSalt := genPassword pbkdf2 salt user_id
      db ++ [{ user_id := user_id, hash := hashSalt.hash,
               salt := hashSalt.salt, issue_time := now }]
  (db2, (get_sessions_by_user db2 user_id).head?)

/-- The JSON object returned by `verify_session`. -/
structure VerifyResult where
  info : String
  valid : Bool
  user_id : JSVal
deriving Repr, DecidableEq

/-- accounts.js `verify_session(hash)`: look up the sessions with the given
hash. When none matches, `sessions[0]` is undefined and the inner catch
leaves the defaults (`"INVALID"`, invalid, 0). Otherwise the session is
expired when `(now - issue_time) / 1000 / 60 / 60 / 24 > 1`, which in exact
arithmetic on integer timestamps is `now - issue_time > 86400000`; else the
hash must validate against the session's user_id and salt. -/
def verify_session (pbkdf2 : PBKDF2) (db : List Session) (hash : String)
    (now : Int) : VerifyResult :=
  match get_sessions_by_hash db hash with
  | [] => { info := "INVALID", valid := false, user_id := .num 0 }
  | s :: _ =>
    if now - s.issue_time > 86400000 then
      { info := "EXPIRED", valid := false, user_id := .num 0 }
    else if validPassword pbkdf2 s.user_id hash s.salt then
      { info := "VALID", valid := true, user_id := .str s.user_id }
    else
      { info := "INVALID", valid := false, user_id := .num 0 }

/-- C1: `genPassword(p)` returns a pair whose hash is the hex PBKDF2-SHA512
digest of p with the salt (10000 iterations, 64-byte key); `validPassword(p',
hash, salt)` returns true iff the digest of p' with that salt equals hash;
and the round trip `validPassword(p, genPassword(p).hash, genPassword(p).salt)`
is true. -/
theorem genPassword_validPassword_spec (pbkdf2 : PBKDF2)
    (p q salt hash : String) :
    (genPassword pbkdf2 salt p).hash = pbkdf2 p salt 10000 64 "sha512" ∧
    (genPassword pbkdf2 salt p).salt = salt ∧
    (validPassword pbkdf2 q hash salt = true ↔
      pbkdf2 q salt 10000 64 "sha512" = hash) ∧
    validPassword pbkdf2 p (genPassword pbkdf2 salt p).hash
      (genPassword pbkdf2 salt p).salt = true := by
  refine ⟨rfl, rfl, ?_, ?_⟩
  · simp only [validPassword, beq_iff_eq]
    exact eq_comm
  · simp [validPassword, genPassword]

/-- C3: account creation succeeds exactly when the duplicate-username check,
the length standard and the duplicate-email check all pass, with the listed
diagnostic messages, user_id 0 and an unchanged accounts collection on every
failure, and an appended account document plus the new id on success. -/
theorem sign_up_spec (pbkdf2 : PBKDF2) (db : List Account)
    (username password email : String) (now : Int) (salt newId : String) :
    ((sign_up pbkdf2 db username password email now salt newId).2.account_created
        = true ↔
      (username_exists db username = false ∧
       valid_user_pass_combo username password = true ∧
       email_exists db email = false)) ∧
    (username_exists db username = true →
      sign_up pbkdf2 db username password email now salt newId =
        (db, { info := "USERNAME ALREADY EXISTS", account_created := false,
               user_id := .num 0 })) ∧
    (username_exists db username = false →
      valid_user_pass_combo username password = false →
      sign_up pbkdf2 db username password email now salt newId =
        (db, { info := "BAD USERNAME PASSWORD", account_created := false,
               user_id := .num 0 })) ∧
    (username_exists db username = false →
      valid_user_pass_combo username password = true →
      email_exists db email = true →
      sign_up pbkdf2 db username password email now salt newId =
        (db, { info := "EMAIL TAKEN", account_created := false,
               user_id := .num 0 })) ∧
    (username_exists db username = false →
      valid_user_pass_combo username password = true →
      email_exists db email = false →
      sign_up pbkdf2 db username password email now salt newId =
        (db ++ [{ time := now, username := username, email := email,
                  hash := (genPassword pbkdf2 salt password).hash,
                  salt := (genPassword pbkdf2 salt password).salt,
                  oid := newId }],
         { info := "ACCOUNT CREATED", account_created := true,
           user_id := .str newId })) := by
  cases hu : username_exists db username <;>
    cases hv : valid_user_pass_combo username password <;>
      cases he : email_exists db email <;>
        simp [sign_up, hu, hv, he]

/-- Witness for C3: on an empty accounts collection, signing up with a valid
username/password/email creates the account. -/
theorem sign_up_spec_witness :
    sign_up (fun p s _ _ _ => "H:" ++ p ++ ":" ++ s) [] "abcdef" "secret1"
        "a@b.co" 0 "salt1" "id1" =
      ([{ time := 0, username := "abcdef", email := "a@b.co",
          hash := "H:secret1:salt1", salt := "salt1", oid := "id1" }],
       { info := "ACCOUNT CREATED", account_created := true,
         user_id := .str "id1" }) := by
  have h := (sign_up_spec (fun p s _ _ _ => "H:" ++ p ++ ":" ++ s) []
    "abcdef" "secret1" "a@b.co" 0 "salt1" "id1").2.2.2.2
    (by decide) (by decide) (by decide)
  simpa [genPassword] using h

/-- C4: login succeeds with "LOGIN SUCCESSFUL" and the first matching
account's id exactly when an account with the username exists and the
password validates against its stored hash and salt; otherwise it fails with
"ACCOUNT DOES NOT EXIST" or "INCORRECT PASSWORD" and user_id 0. -/
theorem login_spec (pbkdf2 : PBKDF2) (db : List Account)
    (username password : String) :
    (get_accounts_by_username db username = [] →
      login pbkdf2 db username password =
        { info := "ACCOUNT DOES NOT EXIST", user_id := .num 0,
          loggedIn := false }) ∧
    (∀ a rest, get_accounts_by_username db username = a :: rest →
      (validPassword pbkdf2 password a.hash a.salt = false →
        login pbkdf2 db username password =
          { info := "INCORRECT PASSWORD", user_id := .num 0,
            loggedIn := false }) ∧
      (validPassword pbkdf2 password a.hash a.salt = true →
        login pbkdf2 db username password =
          { info := "LOGIN SUCCESSFUL", user_id := .str a.oid,
            loggedIn := true })) ∧
    ((login pbkdf2 db username password).loggedIn = true ↔
      ∃ a rest, get_accounts_by_username db username = a :: rest ∧
        validPassword pbkdf2 password a.hash a.salt = true) := by
  refine ⟨fun h => by simp [login, h], ?_, ?_⟩
  · intro a rest hm
    constructor
    · intro hv; simp [login, hm, hv]
    · intro hv; simp [login, hm, hv]
  · cases hm : get_accounts_by_username db username with
    | nil => simp [login, hm]
    | cons b rest =>
      cases hv : validPassword pbkdf2 password b.hash b.salt <;>
        simp [login, hm, hv]

/-- Witness for C4: logging in against a one-account collection with the
correct password succeeds and returns that account's id. -/
theorem login_spec_witness :
    login (fun p s _ _ _ => "H:" ++ p ++ ":" ++ s)
        [{ time := 0, username := "abcdef", email := "a@b.co",
           hash := "H:secret1:salt1", salt := "salt1", oid := "id1" }]
        "abcdef" "secret1" =
      { info := "LOGIN SUCCESSFUL", user_id := .str "id1",
        loggedIn := true } :=
  ((login_spec (fun p s _ _ _ => "H:" ++ p ++ ":" ++ s)
      [{ time := 0, username := "abcdef", email := "a@b.co",
         hash := "H:secret1:salt1", salt := "salt1", oid := "id1" }]
      "abcdef" "secret1").2.1
    { time := 0, username := "abcdef", email := "a@b.co",
      hash := "H:secret1:salt1", salt := "salt1", oid := "id1" }
    [] (by decide)).2 (by decide)

/-- C2: for the first stored session whose hash equals the given one,
verify_session reports EXPIRED when more than a day (86,400,000 ms) has
passed since issue, VALID with the session's user_id when the hash validates
against the session's user_id and salt, and INVALID otherwise; when no
session matches, the result has valid = false. -/
theorem verify_session_spec (pbkdf2 : PBKDF2) (db : List Session)
    (hash : String) (now : Int) :
    (get_sessions_by_hash db hash = [] →
      verify_session pbkdf2 db hash now =
        { info := "INVALID", valid := false, user_id := .num 0 }) ∧
    (∀ s rest, get_sessions_by_hash db hash = s :: rest →
      (now - s.issue_time > 86400000 →
        verify_session pbkdf2 db hash now =
          { info := "EXPIRED", valid := false, user_id := .num 0 }) ∧
      (¬(now - s.issue_time > 86400000) →
        validPassword pbkdf2 s.user_id hash s.salt = true →
        verify_session pbkdf2 db hash now =
          { info := "VALID", valid := true, user_id := .str s.user_id }) ∧
      (¬(now - s.issue_time > 86400000) →
        validPassword pbkdf2 s.user_id hash s.salt = false →
        verify_session pbkdf2 db hash now =
          { info := "INVALID", valid := false, user_id := .num 0 })) := by
  refine ⟨fun h => by simp [verify_session, h], fun s rest hm => ⟨?_, ?_, ?_⟩⟩
  · intro hexp; simp [verify_session, hm, hexp]
  · intro hexp hv; simp [verify_session, hm, hexp, hv]
  · intro hexp hv; simp [verify_session, hm, hexp, hv]

/-- Witness for C2: a fresh session whose hash validates is reported VALID
with its user_id. -/
theorem verify_session_spec_witness :
    verify_session (fun p s _ _ _ => "H:" ++ p ++ ":" ++ s)
        [{ user_id := "u1", hash := "H:u1:s1", salt := "s1",
           issue_time := 0 }] "H:u1:s1" 5 =
      { info := "VALID", valid := true, user_id := .str "u1" } :=
  ((verify_session_spec (fun p s _ _ _ => "H:" ++ p ++ ":" ++ s)
      [{ user_id := "u1", hash := "H:u1:s1", salt := "s1", issue_time := 0 }]
      "H:u1:s1" 5).2
    { user_id := "u1", hash := "H:u1:s1", salt := "s1", issue_time := 0 }
    [] (by decide)).2.1 (by decide) (by decide)

/-- A pointwise update that preserves the user_id field commutes with the
keyed session lookup. -/
theorem get_sessions_by_user_map (db : List Session) (f : Session → Session)
    (hf : ∀ s, (f s).user_id = s.user_id) (v : String) :
    get_sessions_by_user (db.map f) v = (get_sessions_by_user db v).map f := by
  unfold get_sessions_by_user
  rw [List.filter_map]
  have hp : ((fun s : Session => s.user_id == v) ∘ f) =
      (fun s : Session => s.user_id == v) := by
    funext s
    simp [Function.comp, hf]
  rw [hp]

/-- Unfolding equation for `issue_session` when a session for the user
already exists: every matching document gets its issue_time refreshed and
nothing is inserted. -/
theorem issue_session_refresh (pbkdf2 : PBKDF2) (db : List Session)
    (user_id : String) (now : Int) (salt : String)
    (h : get_sessions_by_user db user_id ≠ []) :
    issue_session pbkdf2 db user_id now salt =
      (db.map (fun s =>
         if s.user_id == user_id then { s with issue_time := now } else s),
       ((get_sessions_by_user db user_id).map (fun s =>
         if s.user_id == user_id then { s with issue_time := now } else s)).head?) := by
  have hf : ∀ s : Session,
      ((fun s : Session =>
        if s.user_id == user_id then { s with issue_time := now } else s) s).user_id
        = s.user_id := by
    intro s; by_cases hs : (s.user_id == user_id) <;> simp [hs]
  have hlen : ((get_sessions_by_user db user_id).length != 0) = true := by
    simp only [bne_iff_ne, ne_eq, List.length_eq_zero]
    exact h
  show ((if (get_sessions_by_user db user_id).length != 0 then
           db.map (fun s =>
             if s.user_id == user_id then { s with issue_time := now } else s)
         else
           db ++ [{ user_id := user_id,
                    hash := (genPassword pbkdf2 salt user_id).hash,
                    salt := (genPassword pbkdf2 salt user_id).salt,
                    issue_time := now }]),
        (get_sessions_by_user
          (if (get_sessions_by_user db user_id).length != 0 then
             db.map (fun s =>
               if s.user_id == user_id then { s with issue_time := now } else s)
           else
             db ++ [{ user_id := user_id,
                      hash := (genPassword pbkdf2 salt user_id).hash,
                      salt := (genPassword pbkdf2 salt user_id).salt,
                      issue_time := now }])
          user_id).head?) = _
  rw [if_pos hlen]
  rw [get_sessions_by_user_map db _ hf user_id]

/-- Unfolding equation for `issue_session` when no session for the user
exists: exactly one new document, generated by `genPassword(user_id)`, is
appended, and it is the returned session. -/
theorem issue_session_insert (pbkdf2 : PBKDF2) (db : List Session)
    (user_id : String) (now : Int) (salt : String)
    (h : get_sessions_by_user db user_id = []) :
    issue_session pbkdf2 db user_id now salt =
      (db ++ [{ user_id := user_id,
                hash := (genPassword pbkdf2 salt user_id).hash,
                salt := (genPassword pbkdf2 salt user_id).salt,
                issue_time := now }],
       some { user_id := user_id,
              hash := (genPassword pbkdf2 salt user_id).hash,
              salt := (genPassword pbkdf2 salt user_id).salt,
              issue_time := now }) := by
  have h0 : db.filter (fun s : Session => s.user_id == user_id) = [] := h
  simp [issue_session, get_sessions_by_user, List.filter_append, h0]

/-- C6: session issuance keeps at most one session per user: an existing
session for the user_id is refreshed in place (same collection size, its
issue_time set to the current time), otherwise exactly one new document with
KDF-generated hash and salt is appended; a session document for the user_id
is returned in both cases, and the at-most-one-session-per-user invariant is
preserved. -/
theorem issue_session_spec (pbkdf2 : PBKDF2) (db : List Session)
    (user_id : String) (now : Int) (salt : String) :
    (get_sessions_by_user db user_id ≠ [] →
      (issue_session pbkdf2 db user_id now salt).1.length = db.length ∧
      ∀ s ∈ get_sessions_by_user
          (issue_session pbkdf2 db user_id now salt).1 user_id,
        s.issue_time = now) ∧
    (get_sessions_by_user db user_id = [] →
      (issue_session pbkdf2 db user_id now salt).1 =
        db ++ [{ user_id := user_id,
                 hash := (genPassword pbkdf2 salt user_id).hash,
                 salt := (genPassword pbkdf2 salt user_id).salt,
                 issue_time := now }]) ∧
    (∃ s, (issue_session pbkdf2 db user_id now salt).2 = some s ∧
        s.user_id = user_id) ∧
    ((∀ u, (get_sessions_by_user db u).length ≤ 1) →
      ∀ u, (get_sessions_by_user
          (issue_session pbkdf2 db user_id now salt).1 u).length ≤ 1) := by
  cases hm : get_sessions_by_user db user_id with
  | nil =>
    rw [issue_session_insert pbkdf2 db user_id now salt hm]
    have h0 : db.filter (fun s : Session => s.user_id == user_id) = [] := hm
    refine ⟨fun h => absurd rfl h, fun _ => rfl, ⟨_, rfl, rfl⟩, ?_⟩
    intro hinv u
    by_cases hu : user_id = u
    · subst hu
      simp [get_sessions_by_user, List.filter_append, h0]
    · have hne : (user_id == u) = false := by simp [hu]
      simp [get_sessions_by_user, List.filter_append, hne]
      exact hinv u
  | cons a rest =>
    have hne : get_sessions_by_user db user_id ≠ [] := by rw [hm]; simp
    have hf : ∀ s : Session,
        ((fun s : Session =>
          if s.user_id == user_id then { s with issue_time := now } else s) s).user_id
          = s.user_id := by
      intro s; by_cases hs : (s.user_id == user_id) <;> simp [hs]
    have hmem : a ∈ db.filter (fun s : Session => s.user_id == user_id) := by
      rw [show db.filter (fun s : Session => s.user_id == user_id) = a :: rest
        from hm]
      exact List.mem_cons_self a rest
    have ha : (a.user_id == user_id) = true := (List.mem_filter.mp hmem).2
    rw [issue_session_refresh pbkdf2 db user_id now salt hne]
    refine ⟨fun _ => ⟨by simp, ?_⟩, fun h => (List.cons_ne_nil a rest h).elim,
      ?_, ?_⟩
    · intro s hs
      have hs2 : s ∈ get_sessions_by_user
          (db.map (fun s : Session =>
            if s.user_id == user_id then { s with issue_time := now } else s))
          user_id := hs
      rw [get_sessions_by_user_map db _ hf user_id] at hs2
      obtain ⟨t, ht, rfl⟩ := List.mem_map.mp hs2
      have htu : (t.user_id == user_id) = true := (List.mem_filter.mp ht).2
      simp [htu]
    · refine ⟨{ a with issue_time := now }, ?_, ?_⟩
      · have ha2 : a.user_id = user_id := eq_of_beq ha
        simp [hm, ha2]
      · show a.user_id = user_id
        exact eq_of_beq ha
    · intro hinv u
      show (get_sessions_by_user
        (db.map (fun s : Session =>
          if s.user_id == user_id then { s with issue_time := now } else s))
        u).length ≤ 1
      rw [get_sessions_by_user_map db _ hf u, List.length_map]
      exact hinv u

/-- Witness for C6: issuing a session on an empty sessions collection
inserts exactly the KDF-generated document and preserves the
at-most-one-session-per-user invariant. -/
theorem issue_session_spec_witness :
    (issue_session (fun p s _ _ _ => "H:" ++ p ++ ":" ++ s) [] "u1" 7 "s1").1 =
      [{ user_id := "u1", hash := "H:u1:s1", salt := "s1", issue_time := 7 }] ∧
    ∀ u, (get_sessions_by_user
      (issue_session (fun p s _ _ _ => "H:" ++ p ++ ":" ++ s)
        [] "u1" 7 "s1").1 u).length ≤ 1 := by
  constructor
  · have h := (issue_session_spec (fun p s _ _ _ => "H:" ++ p ++ ":" ++ s)
      [] "u1" 7 "s1").2.1 rfl
    simpa [genPassword] using h
  · exact (issue_session_spec (fun p s _ _ _ => "H:" ++ p ++ ":" ++ s)
      [] "u1" 7 "s1").2.2.2 (by intro u; simp [get_sessions_by_user])

/-- A class document from the catalog, as consumed by the schedule builder
(`clas["NAME"]`, `clas["DIVISION"]`, `clas["NUMBER"]`). -/
structure ClassDoc where
  NAME : String
  DIVISION : String
  NUMBER : String
deriving Repr, DecidableEq

/-- A td cell of the builder's second row: its element id, the text of its
leading span, and the acronyms ("DIVISION-NUMBER") of the class buttons it
holds, in document order. -/
structure Cell where
  id : String
  spanText : String
  buttons : List String
deriving Repr, DecidableEq

/-- The state ScheduleBuilder.js keeps (static fields plus the two table
rows it owns): the column count, the header row's th texts, the second
row's td cells, and the semesters array. -/
structure ScheduleBuilderState where
  columns : Int
  headerRow : List String
  entryRow : List Cell
  semesters : List (List ClassDoc)
deriving Repr, DecidableEq

/-- ScheduleBuilder.js `update_semesters()`: rebuild the semesters array
with one array per td of the second row (each button's acronym resolved via
`ClassRepo.get_class`, modelled by `getClass`), then
`splice(semesters.length - 1)` removes the trailing entry (the bank). -/
def update_semesters (getClass : String → ClassDoc)
    (st : ScheduleBuilderState) : ScheduleBuilderState :=
  { st with semesters :=
      (st.entryRow.map (fun td => td.buttons.map getClass)).dropLast }

/-- JSON string quoting as `JSON.stringify` performs it on the catalog
strings (escaping backslash and double quote; catalog strings carry no
control characters). -/
def jsonQuote (s : String) : String :=
  "\"" ++ String.join (s.toList.map (fun c =>
    if c = '\\' then "\\\\"
    else if c = '"' then "\\\""
    else String.singleton c)) ++ "\""

/-- `JSON.stringify` of one class object. -/
def stringifyClass (c : ClassDoc) : String :=
  "\x7b\"NAME\":" ++ jsonQuote c.NAME ++
    ",\"DIVISION\":" ++ jsonQuote c.DIVISION ++
    ",\"NUMBER\":" ++ jsonQuote c.NUMBER ++ "\x7d"

/-- `JSON.stringify` of an array given its serialized elements. -/
def stringifyArray (elems : List String) : String :=
  "[" ++ String.intercalate "," elems ++ "]"

/-- `JSON.stringify(ScheduleBuilder.semesters)`. -/
def stringifySemesters (sems : List (List ClassDoc)) : String :=
  stringifyArray (sems.map (fun sem => stringifyArray (sem.map stringifyClass)))

/-- ScheduleBuilder.js `save_schedule()`: the document written to the
downloaded schedule.json file is `JSON.stringify(ScheduleBuilder.semesters)`
(the blob/anchor download plumbing adds no data). -/
def save_schedule (st : ScheduleBuilderState) : String :=
  stringifySemesters st.semesters

/-- ScheduleBuilder.js `add_class(clas)`: append a draggable button labelled
by the class acronym "DIVISION-NUMBER" to the bank (the last td of the
second row) and clear the bank span's text. The row built by `fill_entries`
always has at least one td. -/
def add_class (cells : List Cell) (clas : ClassDoc) : List Cell :=
  match cells.getLast? with
  | none => cells
  | some last =>
    cells.dropLast ++
      [{ last with
          spanText := "",
          buttons := last.buttons ++ [clas.DIVISION ++ "-" ++ clas.NUMBER] }]

/-- The header texts built by the loop in `update_header`: for
`i = 1 .. columns + 1` the th reads "Semester i", except the last
(`i = columns + 1`), which reads "Selected Classes". -/
def header_cells (columns : Int) : List String :=
  (List.range (columns + 1).toNat).map (fun k : Nat =>
    if (k : Int) + 1 = columns + 1 then "Selected Classes"
    else "Semester " ++ toString ((k : Int) + 1))

/-- The fresh td cells built by the loop in `fill_entries`: for
`i = 0 .. columns`, a td with id "builderNodei" and a span reading
"No classes selected". -/
def initial_cells (columns : Int) : List Cell :=
  (List.range (columns + 1).toNat).map (fun i =>
    { id := "builderNode" ++ toString i,
      spanText := "No classes selected", buttons := [] })

/-- ScheduleBuilder.js `fill_entries()`: clear the second row, create
`columns + 1` fresh tds, add every class currently selected in the
ClassRepo bank, then run `update_semesters`. -/
def fill_entries (getClass : String → ClassDoc) (selected : List ClassDoc)
    (st : ScheduleBuilderState) : ScheduleBuilderState :=
  update_semesters getClass
    { st with entryRow := selected.foldl add_class (initial_cells st.columns) }

/-- ScheduleBuilder.js `update_header(columns)`: return immediately when
`columns <= 0`; otherwise set `ScheduleBuilder.columns`, rebuild the header
row and refill the entry row via `fill_entries`. -/
def update_header (getClass : String → ClassDoc) (selected : List ClassDoc)
    (columns : Int) (st : ScheduleBuilderState) : ScheduleBuilderState :=
  if columns ≤ 0 then st
  else
    fill_entries getClass selected
      { st with columns := columns, headerRow := header_cells columns }

/-- `add_class` never changes the number of tds in the row. -/
theorem add_class_length (cells : List Cell) (c : ClassDoc) :
    (add_class cells c).length = cells.length := by
  unfold add_class
  cases hl : cells.getLast? with
  | none => rfl
  | some last =>
    have hne : cells ≠ [] := by
      intro h; subst h; simp at hl
    have hpos : 0 < cells.length := List.length_pos.mpr hne
    simp [List.length_dropLast]
    omega

/-- Adding any bag of classes to the row keeps the number of tds. -/
theorem foldl_add_class_length (selected : List ClassDoc) (cells : List Cell) :
    (selected.foldl add_class cells).length = cells.length := by
  induction selected generalizing cells with
  | nil => rfl
  | cons c cs ih => rw [List.foldl_cons, ih, add_class_length]

/-- For `columns ≥ 1` the header loop produces "Semester 1" .. "Semester n"
followed by the bank header. -/
theorem header_cells_eq (n : Int) (hn : 1 ≤ n) :
    header_cells n =
      (List.range n.toNat).map
        (fun k : Nat => "Semester " ++ toString ((k : Int) + 1)) ++
      ["Selected Classes"] := by
  unfold header_cells
  have h1 : (n + 1).toNat = n.toNat + 1 := by omega
  rw [h1, List.range_succ, List.map_append]
  have h2 : ((n.toNat : Int)) = n := Int.toNat_of_nonneg (by omega)
  congr 1
  · apply List.map_congr_left
    intro k hk
    have hk2 : k < n.toNat := List.mem_range.mp hk
    have : ¬((k : Int) + 1 = n + 1) := by omega
    simp [this]
  · simp [h2]

/-- C5: after `update_semesters`, the semesters array holds one class list
per td of the second row in column order with the bank (last column)
excluded, so its length equals the column count whenever the row is the
`columns + 1`-cell row built by `fill_entries`; and `save_schedule`
serializes exactly this semesters array. -/
theorem update_semesters_save_spec (getClass : String → ClassDoc)
    (st : ScheduleBuilderState) (hcols : 0 ≤ st.columns)
    (hrow : (st.entryRow.length : Int) = st.columns + 1) :
    (update_semesters getClass st).semesters =
      st.entryRow.dropLast.map (fun td => td.buttons.map getClass) ∧
    ((update_semesters getClass st).semesters.length : Int) = st.columns ∧
    save_schedule (update_semesters getClass st) =
      stringifySemesters ((update_semesters getClass st).semesters) := by
  refine ⟨?_, ?_, rfl⟩
  · show (st.entryRow.map (fun td => td.buttons.map getClass)).dropLast = _
    exact (List.map_dropLast _ _).symm
  · show (((st.entryRow.map
      (fun td => td.buttons.map getClass)).dropLast).length : Int)
        = st.columns
    simp only [List.length_dropLast, List.length_map]
    have h1 : 1 ≤ st.entryRow.length := by omega
    zify [h1]
    omega

/-- Witness for C5: a two-column row (one semester td plus the bank) yields
a one-entry semesters array excluding the bank. -/
theorem update_semesters_save_spec_witness :
    (update_semesters (fun a => { NAME := a, DIVISION := "D", NUMBER := "1" })
      { columns := 1, headerRow := ["Semester 1", "Selected Classes"],
        entryRow := [{ id := "builderNode0", spanText := "",
                       buttons := ["D-1"] },
                     { id := "builderNode1",
                       spanText := "No classes selected", buttons := [] }],
        semesters := [] }).semesters =
      [[{ NAME := "D-1", DIVISION := "D", NUMBER := "1" }]] ∧
    ((update_semesters (fun a => { NAME := a, DIVISION := "D", NUMBER := "1" })
      { columns := 1, headerRow := ["Semester 1", "Selected Classes"],
        entryRow := [{ id := "builderNode0", spanText := "",
                       buttons := ["D-1"] },
                     { id := "builderNode1",
                       spanText := "No classes selected", buttons := [] }],
        semesters := [] }).semesters.length : Int) = 1 := by
  have h := update_semesters_save_spec
    (fun a => { NAME := a, DIVISION := "D", NUMBER := "1" })
    { columns := 1, headerRow := ["Semester 1", "Selected Classes"],
      entryRow := [{ id := "builderNode0", spanText := "", buttons := ["D-1"] },
                   { id := "builderNode1",
                     spanText := "No classes selected", buttons := [] }],
      semesters := [] } (by decide) (by decide)
  exact ⟨by rw [h.1]; rfl, h.2.1⟩

/-- C7: for every integer n ≥ 1, `update_header(n)` sets the column count to
n, rebuilds the header row to n+1 cells "Semester 1" .. "Semester n" then
"Selected Classes", and rebuilds the entry row with n+1 td cells; for n ≤ 0
it returns immediately, leaving the state unchanged. -/
theorem update_header_spec (getClass : String → ClassDoc)
    (selected : List ClassDoc) (n : Int) (st : ScheduleBuilderState) :
    (1 ≤ n →
      (update_header getClass selected n st).columns = n ∧
      (update_header getClass selected n st).headerRow =
        (List.range n.toNat).map
          (fun k : Nat => "Semester " ++ toString ((k : Int) + 1)) ++
        ["Selected Classes"] ∧
      ((update_header getClass selected n st).headerRow.length : Int) = n + 1 ∧
      ((update_header getClass selected n st).entryRow.length : Int) = n + 1) ∧
    (n ≤ 0 → update_header getClass selected n st = st) := by
  constructor
  · intro hn
    have hngt : ¬(n ≤ 0) := by omega
    have hcols : (update_header getClass selected n st).columns = n := by
      simp [update_header, hngt, fill_entries, update_semesters]
    have hhead : (update_header getClass selected n st).headerRow =
        header_cells n := by
      simp [update_header, hngt, fill_entries, update_semesters]
    have hrow : (update_header getClass selected n st).entryRow =
        selected.foldl add_class (initial_cells n) := by
      simp [update_header, hngt, fill_entries, update_semesters]
    refine ⟨hcols, ?_, ?_, ?_⟩
    · rw [hhead, header_cells_eq n hn]
    · rw [hhead, header_cells_eq n hn]
      simp only [List.length_append, List.length_map, List.length_range,
        List.length_cons, List.length_nil]
      omega
    · rw [hrow, foldl_add_class_length]
      simp only [initial_cells, List.length_map, List.length_range]
      omega
  · intro hn
    simp [update_header, hn]

/-- Witness for C7: with n = 2 the header becomes
["Semester 1", "Semester 2", "Selected Classes"] and the entry row has three
tds; with n = 0 the state is untouched. -/
theorem update_header_spec_witness :
    ((update_header (fun a => { NAME := a, DIVISION := "D", NUMBER := "1" })
        [] 2 { columns := 1, headerRow := [], entryRow := [],
               semesters := [] }).columns = 2 ∧
     (update_header (fun a => { NAME := a, DIVISION := "D", NUMBER := "1" })
        [] 2 { columns := 1, headerRow := [], entryRow := [],
               semesters := [] }).headerRow =
       ["Semester 1", "Semester 2", "Selected Classes"] ∧
     ((update_header (fun a => { NAME := a, DIVISION := "D", NUMBER := "1" })
        [] 2 { columns := 1, headerRow := [], entryRow := [],
               semesters := [] }).entryRow.length : Int) = 3) ∧
    update_header (fun a => { NAME := a, DIVISION := "D", NUMBER := "1" })
        [] 0 { columns := 1, headerRow := [], entryRow := [],
               semesters := [] } =
      { columns := 1, headerRow := [], entryRow := [], semesters := [] } := by
  constructor
  · have h := (update_header_spec
      (fun a => { NAME := a, DIVISION := "D", NUMBER := "1" }) [] 2
      { columns := 1, headerRow := [], entryRow := [], semesters := [] }).1
      (by decide)
    refine ⟨h.1, ?_, ?_⟩
    · rw [h.2.1]; rfl
    · exact h.2.2.2
  · exact (update_header_spec
      (fun a => { NAME := a, DIVISION := "D", NUMBER := "1" }) [] 0
      { columns := 1, headerRow := [], entryRow := [], semesters := [] }).2
      (by decide)

/-- The body of the POST /sign-up request the click handler sends. -/
structure SignUpRequest where
  username : String
  password : String
  email : String
deriving Repr, DecidableEq

/-- JavaScript `s.includes(needle)` for a one-character needle: containment
of that character among the string's characters. -/
def includesChar (s : String) (c : Char) : Bool :=
  s.toList.contains c

/-- signup.js: the message written by the validation cascade at the top of
the create-button click handler. `email.includes(".")` and
`email.includes("@")` on one-character needles are character containment. -/
def client_validation_message (username password confirm email : String) :
    String :=
  if username == "" || password == "" || confirm == "" || email == "" then
    "All fields must be filled."
  else if password != confirm then
    "The passwords do not match."
  else if !(includesChar email '.') || !(includesChar email '@') then
    "Please provide a valid email."
  else if username.length < 5 || password.length < 6 then
    "Username > 5, Password > 6."
  else
    "Attempting to create account..."

/-- What one click of the create button produces: the request sent to
/sign-up and the successive texts written to the message element, in
order. -/
structure ClickOutcome where
  request : SignUpRequest
  messages : List String
deriving Repr, DecidableEq

/-- signup.js `attachButtonScript` click handler: write the validation
message, then unconditionally POST the entered username, password and email
to /sign-up (`server` models the JSON the server answers with), then
overwrite the message with the response-derived text. -/
def signup_click (server : SignUpRequest → SignUpResult)
    (username password confirm email : String) : ClickOutcome :=
  let preMsg := client_validation_message username password confirm email
  let req : SignUpRequest :=
    { username := username, password := password, email := email }
  let resp := server req
  let postMsg :=
    if !resp.account_created then "An error occurred: " ++ resp.info
    else "Your account has been created!"
  { request := req, messages := [preMsg, postMsg] }

/-- C9: client-side signup validation does not block submission: whatever
the entered fields are (in particular whenever any client-side check fails),
the click handler still sends the POST to /sign-up with the entered
username, password and email, and the displayed message (the last one
written) is the one derived from the server's response. -/
theorem signup_click_always_posts (server : SignUpRequest → SignUpResult)
    (username password confirm email : String) :
    (signup_click server username password confirm email).request =
      { username := username, password := password, email := email } ∧
    (signup_click server username password confirm email).messages.getLast? =
      some (if !(server { username := username, password := password,
                          email := email }).account_created then
              "An error occurred: " ++
                (server { username := username, password := password,
                          email := email }).info
            else "Your account has been created!") :=
  ⟨rfl, rfl⟩

/-- C10: the client passes a length-5 username (its check only rejects
length < 5) while the server's `valid_user_pass_combo` requires length > 5:
with a length-5 username, a password of length ≥ 6 equal to its
confirmation, an email containing "." and "@", and no account with that
username, the client validation falls through to "Attempting to create
account..." but the server rejects the sign-up with "BAD USERNAME
PASSWORD". -/
theorem client_server_length_mismatch (pbkdf2 : PBKDF2) (db : List Account)
    (username password email : String) (now : Int) (salt newId : String)
    (hu : username.length = 5) (hp : 6 ≤ password.length)
    (hdot : includesChar email '.' = true) (hat : includesChar email '@' = true)
    (hexists : username_exists db username = false) :
    client_validation_message username password password email =
      "Attempting to create account..." ∧
    (sign_up pbkdf2 db username password email now salt newId).2.info =
      "BAD USERNAME PASSWORD" ∧
    (sign_up pbkdf2 db username password email now salt
      newId).2.account_created = false := by
  have hune : username ≠ "" := by
    intro h; rw [h] at hu; simp at hu
  have hpne : password ≠ "" := by
    intro h; rw [h] at hp; simp at hp
  have hene : email ≠ "" := by
    intro h; rw [h] at hat
    exact absurd hat (by decide)
  have hp2 : ¬(password.length < 6) := by omega
  have hu2 : ¬(username.length < 5) := by omega
  have hcombo : valid_user_pass_combo username password = false := by
    simp [valid_user_pass_combo, hu]
  refine ⟨?_, ?_, ?_⟩
  · simp [client_validation_message, hune, hpne, hene, hdot, hat, hu2, hp2]
  · simp [sign_up, hexists, hcombo]
  · simp [sign_up, hexists, hcombo]

/-- Witness for C10: username "abcde" (length 5) with password "secret1"
passes the client check but the server answers "BAD USERNAME PASSWORD". -/
theorem client_server_length_mismatch_witness :
    client_validation_message "abcde" "secret1" "secret1" "a@b.co" =
      "Attempting to create account..." ∧
    (sign_up (fun p s _ _ _ => "H:" ++ p ++ ":" ++ s) [] "abcde" "secret1"
      "a@b.co" 0 "salt2" "id2").2.info = "BAD USERNAME PASSWORD" ∧
    (sign_up (fun p s _ _ _ => "H:" ++ p ++ ":" ++ s) [] "abcde" "secret1"
      "a@b.co" 0 "salt2" "id2").2.account_created = false :=
  client_server_length_mismatch (fun p s _ _ _ => "H:" ++ p ++ ":" ++ s) []
    "abcde" "secret1" "a@b.co" 0 "salt2" "id2" (by decide) (by decide)
    (by decide) (by decide) (by decide)

end MakeMyFuture
